/-
  Verification of the PalomaPOS Dashboard session/auth state holder
  (frontend/src/contexts/AuthContext.tsx) and the embedded-app frame
  bridge (frontend/src/components/common/IframeContainer.tsx).

  The TypeScript code is shallowly embedded: browser storages become
  association lists, the React state becomes an explicit record that the
  operations transform, asynchronous fetches become explicit response
  parameters, and observable side effects (navigation, toasts) become an
  effect list returned alongside the new state.
-/
import Mathlib

set_option autoImplicit false
set_option linter.unusedVariables false

namespace Paloma

/-! ### Browser storage model -/

/-- A browser key-value storage (sessionStorage or localStorage), modelled
as an association list from keys to string values. -/
structure Storage where
  entries : List (String × String)
deriving Repr, DecidableEq

/-- `storage.getItem(k)`: the stored value, or null (`none`). -/
def Storage.getItem (s : Storage) (k : String) : Option String :=
  (s.entries.find? (fun kv => kv.1 == k)).map (fun kv => kv.2)

/-- `storage.removeItem(k)`. -/
def Storage.removeItem (s : Storage) (k : String) : Storage :=
  ⟨s.entries.filter (fun kv => kv.1 != k)⟩

/-- `storage.setItem(k, v)` (overwrites any previous value of `k`). -/
def Storage.setItem (s : Storage) (k v : String) : Storage :=
  ⟨(k, v) :: (s.removeItem k).entries⟩

/-- The empty storage. -/
def Storage.empty : Storage := ⟨[]⟩

/-! ### JavaScript string truthiness helpers -/

/-- JS truthiness of a string-or-null value: null and the empty string are
falsy. -/
def truthy : Option String → Bool
  | none => false
  | some s => s != ""

/-- The JS expression `x || d` for a string-or-null `x` and a string
default `d`. -/
def orDefault : Option String → String → String
  | none, d => d
  | some s, d => if s == "" then d else s

/-- The JS expression `x || null` for a string-or-null `x`. -/
def orNull : Option String → Option String
  | none => none
  | some s => if s == "" then none else some s

/-! ### Auth data model (AuthContext.tsx) -/

/-- The `AuthState` record of AuthContext.tsx. -/
structure AuthState where
  token : Option String
  accid : Option String
  apid : Option String
  employeeid : Option String
  wpid : Option String
  isAuthenticated : Bool
  isTokenInheriting : Bool
  isCredentialLogin : Bool
deriving Repr, DecidableEq

/-- The `SessionData` record of AuthContext.tsx. -/
structure SessionData where
  idautomated_point : String
  idworkplace : String
deriving Repr, DecidableEq

/-! The `STORAGE_KEYS` constant object of AuthContext.tsx. -/

namespace STORAGE_KEYS

def TOKEN : String := "paloma_token"

def ACCID : String := "paloma_accid"

def APID : String := "paloma_apid"

def EMPLOYEE_ID : String := "paloma_employeeid"

def WPID : String := "paloma_wpid"

def AUTOMATED_POINT : String := "paloma_idautomated_point"

def WORKPLACE : String := "paloma_idworkplace"

def IS_TOKEN_INHERIT : String := "isTokenInherit"

def IS_CREDENTIAL_LOGIN : String := "isCredentialLogin"

/-- `Object.values(STORAGE_KEYS)`, in declaration order. -/
def values : List String :=
  [TOKEN, ACCID, APID, EMPLOYEE_ID, WPID, AUTOMATED_POINT, WORKPLACE,
   IS_TOKEN_INHERIT, IS_CREDENTIAL_LOGIN]

end STORAGE_KEYS

/-- Observable side effects emitted by the auth operations: router
navigation, hard location replacement, and toast notifications. -/
inductive Effect where
  | navigate (path : String)
  | locationReplace (path : String)
  | toastError (msg : String)
  | toastInfo (msg : String)
deriving Repr, DecidableEq

/-- The mutable world the AuthProvider operates on: the `auth` React state,
the separate `isTokenInheriting` React state (which shadows the record
field in the exposed context value), the `sessionData` state, both browser
storages, the theme and language context states, and the module-level API
URL of apiConfigService. -/
structure World where
  auth : AuthState
  isTokenInheriting : Bool
  sessionData : Option SessionData
  session : Storage
  localStore : Storage
  theme : String
  language : String
  apiUrl : String
deriving Repr, DecidableEq

/-- Modelled from the spec: `palomaURL`, the base API URL constant exported
by apiConfigService (that service file is not under src/). It is used only
as a fetch target, so its exact value does not affect any claim. -/
def palomaURL : String := "https://posapi.palomapos.com/api/v1.9"

/-- `clearStorage` (AuthContext.tsx lines 99 to 104): removes every value of
`STORAGE_KEYS` from sessionStorage and the cached currency from
localStorage. -/
def clearStorage (w : World) : World :=
  { w with
    session := STORAGE_KEYS.values.foldl (fun s k => s.removeItem k) w.session,
    localStore := w.localStore.removeItem "currency" }

/-- `logout` (AuthContext.tsx lines 246 to 261): clears storage, resets the
auth record and session data, shows a toast and hard-replaces the location
with /login. The separate `isTokenInheriting` state is not written by
`logout`. -/
def logout (w : World) : World × List Effect :=
  let w := clearStorage w
  let w :=
    { w with
      auth :=
        { token := none, accid := none, apid := none, employeeid := none,
          wpid := none, isAuthenticated := false, isTokenInheriting := false,
          isCredentialLogin := false },
      sessionData := none }
  (w, [Effect.toastInfo "Logged out successfully", Effect.locationReplace "/login"])

/-- `handleTokenError` (AuthContext.tsx lines 106 to 110): toast, logout,
then a router navigation to /login. -/
def handleTokenError (w : World) : World × List Effect :=
  let r := logout w
  (r.1, Effect.toastError "Session expired. Please log in again." :: r.2 ++
    [Effect.navigate "/login"])

/-! ### Fetch response models -/

/-- Outcome of an awaited `fetch` plus `response.json()`: either a parsed
body or a thrown network/parse error. -/
inductive FetchResult (β : Type) where
  | ok (body : β)
  | netError
deriving Repr, DecidableEq

/-- The fields of the /getReports response body that
`fetchAndStoreCurrency` and the claims inspect: the error sentinel fields
and `data?.currency?.[0]?.key_value`. -/
structure CurrencyBody where
  message : Option String
  error : Option String
  keyValue : Option String
deriving Repr, DecidableEq

/-- The fields of the /get (session endpoint) response body that
`fetchSessionData` inspects: the error sentinel fields and `data.data?.[0]`
with its two ids. -/
structure SessionBody where
  message : Option String
  error : Option String
  row : Option SessionData
deriving Repr, DecidableEq

/-- The invalid-token sentinel check of AuthContext.tsx line 347:
`data?.message === 'Token is invalid' && data?.error === '102'`. -/
def SessionBody.isSentinel (b : SessionBody) : Bool :=
  b.message == some "Token is invalid" && b.error == some "102"

/-- The fields of the /getToken response body read by `login`. -/
structure TokenBody where
  token : Option String
  accid : Option String
  apid : Option String
  employeeid : Option String
  wpid : Option String
deriving Repr, DecidableEq

/-- `fetchAndStoreCurrency` (AuthContext.tsx lines 112 to 140): stores the
fetched currency symbol in localStorage, falling back to the dollar sign
when the value is missing, falsy, or the fetch throws. It never inspects
the invalid-token sentinel and emits no navigation or toast effect. The
`token` and `customUrl` arguments only shape the request. -/
def fetchAndStoreCurrency (token customUrl : String)
    (resp : FetchResult CurrencyBody) (w : World) : World :=
  match resp with
  | .ok body =>
      if truthy body.keyValue then
        { w with localStore := w.localStore.setItem "currency" (body.keyValue.getD "$") }
      else
        { w with localStore := w.localStore.setItem "currency" "$" }
  | .netError =>
      { w with localStore := w.localStore.setItem "currency" "$" }

/-- `fetchSessionData` (AuthContext.tsx lines 328 to 378): guards on a falsy
token, invokes `handleTokenError` on the invalid-token sentinel, otherwise
stores the fetched row (when present) and re-asserts `isAuthenticated`. A
thrown fetch only produces an error toast. -/
def fetchSessionData (token : String) (resp : FetchResult SessionBody)
    (w : World) : World × List Effect :=
  if token == "" then (w, [])
  else
    match resp with
    | .netError => (w, [Effect.toastError "Failed to fetch session data"])
    | .ok body =>
        if body.isSentinel then handleTokenError w
        else
          let w :=
            match body.row with
            | some rowData =>
                { w with
                  sessionData := some rowData,
                  session :=
                    (w.session.setItem STORAGE_KEYS.AUTOMATED_POINT
                      rowData.idautomated_point).setItem STORAGE_KEYS.WORKPLACE
                      rowData.idworkplace }
            | none => w
          ({ w with auth := { w.auth with isAuthenticated := true } }, [])

/-- `login` (AuthContext.tsx lines 263 to 326): marks the credential-login
path in sessionStorage, points the API at the fixed URL, and on a truthy
returned token persists the session fields, sets the auth record, fetches
the currency and the session metadata, and returns true. A missing token
or a thrown getToken fetch returns false with an error toast. -/
def login (username password : String) (tokenResp : FetchResult TokenBody)
    (currencyResp : FetchResult CurrencyBody) (sessionResp : FetchResult SessionBody)
    (w : World) : World × List Effect × Bool :=
  let w :=
    { w with
      session := (w.session.removeItem STORAGE_KEYS.IS_TOKEN_INHERIT).setItem
        STORAGE_KEYS.IS_CREDENTIAL_LOGIN "true",
      apiUrl := "https://posapi.palomapos.com/api/v1.9" }
  match tokenResp with
  | .netError =>
      (w, [Effect.toastError "Failed to login. Please check your credentials and try again."],
       false)
  | .ok data =>
      if !truthy data.token then (w, [Effect.toastError "Authentication failed"], false)
      else
        let t := data.token.getD ""
        let w :=
          { w with
            session :=
              ((((w.session.setItem STORAGE_KEYS.TOKEN t).setItem
                STORAGE_KEYS.ACCID (orDefault data.accid "")).setItem
                STORAGE_KEYS.APID (orDefault data.apid "")).setItem
                STORAGE_KEYS.EMPLOYEE_ID (orDefault data.employeeid "")).setItem
                STORAGE_KEYS.WPID (orDefault data.wpid "") }
        let w :=
          { w with
            auth :=
              { token := some t, accid := orNull data.accid, apid := orNull data.apid,
                employeeid := orNull data.employeeid, wpid := orNull data.wpid,
                isAuthenticated := true, isTokenInheriting := false,
                isCredentialLogin := true } }
        let w := fetchAndStoreCurrency t "https://posapi.palomapos.com/api/v1.9" currencyResp w
        let r := fetchSessionData t sessionResp w
        (r.1, r.2, true)

/-! ### The global message listener (token inheritance) -/

/-- The fields destructured from `event.data` by the message handler
(AuthContext.tsx line 157). Inbound data of any other shape behaves as if
all of these fields were absent. -/
structure MessageData where
  type : Option String
  token : Option String
  customUrl : Option String
  theme : Option String
  language : Option String
  accid : Option String
  apid : Option String
  employeeid : Option String
  wpid : Option String
deriving Repr, DecidableEq

/-- A message whose destructured fields are all absent (the `event.data || {}`
fall-back for falsy data). -/
def MessageData.empty : MessageData :=
  { type := none, token := none, customUrl := none, theme := none,
    language := none, accid := none, apid := none, employeeid := none,
    wpid := none }

/-- `sessionStorage.setItem(key, x)` guarded by `if (x)` for a
string-or-null `x`. -/
def Storage.setIfTruthy (s : Storage) (key : String) (v : Option String) : Storage :=
  if truthy v then s.setItem key (v.getD "") else s

/-- The synchronous part of the authenticated branch of the message handler
(AuthContext.tsx lines 159 to 201): persists the inheritance flag and the
received session fields, applies theme and language defaults, records a
custom API URL, and sets both `isTokenInheriting` states to true. This is
the state while the currency fetch is pending. -/
def handlerSetup (msg : MessageData) (w : World) : World :=
  let w :=
    { w with
      session := (w.session.setItem STORAGE_KEYS.IS_TOKEN_INHERIT "true").removeItem
        STORAGE_KEYS.IS_CREDENTIAL_LOGIN }
  let w := { w with session := w.session.setIfTruthy STORAGE_KEYS.TOKEN msg.token }
  let w := { w with session := w.session.setIfTruthy STORAGE_KEYS.ACCID msg.accid }
  let w := { w with session := w.session.setIfTruthy STORAGE_KEYS.APID msg.apid }
  let w := { w with session := w.session.setIfTruthy STORAGE_KEYS.EMPLOYEE_ID msg.employeeid }
  let w := { w with session := w.session.setIfTruthy STORAGE_KEYS.WPID msg.wpid }
  let w := { w with theme := orDefault msg.theme "system", language := orDefault msg.language "en" }
  let w :=
    if truthy msg.customUrl then
      { w with
        apiUrl := msg.customUrl.getD "",
        session := w.session.setItem "paloma_customUrl" (msg.customUrl.getD "") }
    else w
  { w with isTokenInheriting := true, auth := { w.auth with isTokenInheriting := true } }

/-- The segment of the authenticated branch from the awaited currency fetch
through the post-fetch `setAuth` and `setIsTokenInheriting(false)`
(AuthContext.tsx lines 203 to 216). This is the state while the session
metadata fetch is pending: `isTokenInheriting` is already false. -/
def handlerResolve (msg : MessageData) (currencyResp : FetchResult CurrencyBody)
    (w : World) : World :=
  let t := msg.token.getD ""
  let w := fetchAndStoreCurrency t (orDefault msg.customUrl palomaURL) currencyResp w
  { w with
    auth :=
      { w.auth with
        token := some t, accid := orNull msg.accid, apid := orNull msg.apid,
        employeeid := orNull msg.employeeid, wpid := orNull msg.wpid,
        isTokenInheriting := false, isAuthenticated := true,
        isCredentialLogin := false },
    isTokenInheriting := false }

/-- The guard of the authenticated branch (AuthContext.tsx line 159):
`type === 'authentication' && token` on the destructured event data. -/
def isAuthenticationMessage (eventData : Option MessageData) : Bool :=
  let msg := eventData.getD MessageData.empty
  msg.type == some "authentication" && truthy msg.token

/-- The window message handler (AuthContext.tsx lines 153 to 237). On an
authentication message with a truthy token it runs the setup, the currency
fetch resolution and the session-data fetch, then navigates to /dashboard
(the catch branch around `fetchSessionData` is dead code, since that
function catches all its own errors). Any other message resets both
`isTokenInheriting` states and navigates to /login. -/
def handler (eventData : Option MessageData) (currencyResp : FetchResult CurrencyBody)
    (sessionResp : FetchResult SessionBody) (w : World) : World × List Effect :=
  let msg := eventData.getD MessageData.empty
  if isAuthenticationMessage eventData then
    let w1 := handlerSetup msg w
    let w2 := handlerResolve msg currencyResp w1
    let r := fetchSessionData (msg.token.getD "") sessionResp w2
    (r.1, r.2 ++ [Effect.navigate "/dashboard"])
  else
    ({ w with isTokenInheriting := false,
              auth := { w.auth with isTokenInheriting := false } },
     [Effect.navigate "/login"])

/-! ### Hydration from storage -/

/-- The initial `auth` React state (AuthContext.tsx lines 72 to 88),
hydrated from sessionStorage. -/
def initialAuthState (session : Storage) : AuthState :=
  let token := session.getItem STORAGE_KEYS.TOKEN
  let isTokenInherit := session.getItem STORAGE_KEYS.IS_TOKEN_INHERIT == some "true"
  let isCredentialLogin := session.getItem STORAGE_KEYS.IS_CREDENTIAL_LOGIN == some "true"
  { token := token,
    accid := session.getItem STORAGE_KEYS.ACCID,
    apid := session.getItem STORAGE_KEYS.APID,
    employeeid := session.getItem STORAGE_KEYS.EMPLOYEE_ID,
    wpid := session.getItem STORAGE_KEYS.WPID,
    isAuthenticated := truthy token,
    isTokenInheriting := isTokenInherit && !truthy token,
    isCredentialLogin := isCredentialLogin }

/-- The world right after the AuthProvider initializers ran against the
given storages (AuthContext.tsx lines 72 to 97). -/
def initialWorld (session localStore : Storage) (theme language apiUrl : String) : World :=
  { auth := initialAuthState session,
    isTokenInheriting :=
      (session.getItem STORAGE_KEYS.IS_TOKEN_INHERIT == some "true") &&
        !truthy (session.getItem STORAGE_KEYS.TOKEN),
    sessionData := none,
    session := session, localStore := localStore,
    theme := theme, language := language, apiUrl := apiUrl }

/-- The mount-time effect body (AuthContext.tsx lines 142 to 151): if the
inheritance flag is set and no token is stored, force both
`isTokenInheriting` states to true. -/
def mountEffect (w : World) : World :=
  if (w.session.getItem STORAGE_KEYS.IS_TOKEN_INHERIT == some "true") &&
      !truthy (w.session.getItem STORAGE_KEYS.TOKEN) then
    { w with isTokenInheriting := true, auth := { w.auth with isTokenInheriting := true } }
  else w

/-! ### Reachable states of the auth provider -/

/-- Worlds reachable through the AuthProvider operations, including the
transient mid-states of the message handler (after its synchronous setup,
and after the currency fetch resolves). -/
inductive Reach : World → Prop where
  | init (session localStore : Storage) (theme language apiUrl : String) :
      Reach (initialWorld session localStore theme language apiUrl)
  | mount {w : World} : Reach w → Reach (mountEffect w)
  | loginStep {w : World} (u p : String) (tr : FetchResult TokenBody)
      (cr : FetchResult CurrencyBody) (sr : FetchResult SessionBody) :
      Reach w → Reach (login u p tr cr sr w).1
  | logoutStep {w : World} : Reach w → Reach (logout w).1
  | tokenErrorStep {w : World} : Reach w → Reach (handleTokenError w).1
  | message {w : World} (m : Option MessageData) (cr : FetchResult CurrencyBody)
      (sr : FetchResult SessionBody) :
      Reach w → Reach (handler m cr sr w).1
  | messageMidSetup {w : World} (msg : MessageData) :
      Reach w → isAuthenticationMessage (some msg) = true →
      Reach (handlerSetup msg w)
  | messageMidResolve {w : World} (msg : MessageData) (cr : FetchResult CurrencyBody) :
      Reach w → isAuthenticationMessage (some msg) = true →
      Reach (handlerResolve msg cr (handlerSetup msg w))

/-- Worlds reachable through the completed AuthProvider operations only
(quiescent states: no handler is mid-flight). -/
inductive ReachQ : World → Prop where
  | init (session localStore : Storage) (theme language apiUrl : String) :
      ReachQ (initialWorld session localStore theme language apiUrl)
  | mount {w : World} : ReachQ w → ReachQ (mountEffect w)
  | loginStep {w : World} (u p : String) (tr : FetchResult TokenBody)
      (cr : FetchResult CurrencyBody) (sr : FetchResult SessionBody) :
      ReachQ w → ReachQ (login u p tr cr sr w).1
  | logoutStep {w : World} : ReachQ w → ReachQ (logout w).1
  | tokenErrorStep {w : World} : ReachQ w → ReachQ (handleTokenError w).1
  | message {w : World} (m : Option MessageData) (cr : FetchResult CurrencyBody)
      (sr : FetchResult SessionBody) :
      ReachQ w → ReachQ (handler m cr sr w).1

/-! ### The embedded-app frame bridge (IframeContainer.tsx) -/

/-- A JS value occurring in a message posted by IframeContainer: a string,
null, or the sessionData object. -/
inductive JVal where
  | str (v : String)
  | jnull
  | sdata (d : SessionData)
deriving Repr, DecidableEq

/-- A posted message object, as an ordered list of its fields. -/
def Posted := List (String × JVal)

/-- A string-or-null context value as a message field. -/
def jopt : Option String → JVal
  | some s => JVal.str s
  | none => JVal.jnull

/-- Field lookup in a posted message object. -/
def lookupField (m : List (String × JVal)) (k : String) : Option JVal :=
  (m.find? (fun kv => kv.1 == k)).map (fun kv => kv.2)

/-- The parts of an absolute URL that IframeContainer reads off the `URL`
object: `protocol` keeps the trailing colon, and `tail` is everything after
the host (path, query and fragment, possibly empty). -/
structure ParsedUrl where
  protocol : String
  host : String
  tail : String
deriving Repr, DecidableEq

/-- Splits a character list at its first occurrence of the :// scheme
separator. -/
def splitSchemeChars : List Char → Option (List Char × List Char)
  | [] => none
  | ':' :: '/' :: '/' :: rest => some ([], rest)
  | c :: rest =>
      match splitSchemeChars rest with
      | none => none
      | some (pre, post) => some (c :: pre, post)

/-- Models the `new URL(...)` constructor for the absolute
scheme://host... URLs this application navigates to (alphabetic scheme and
a non-empty host, both lowercased as the browser does); anything else is
treated as a parse failure, which the source maps to its catch branches. -/
def parseUrl (url : String) : Option ParsedUrl :=
  match splitSchemeChars url.toList with
  | none => none
  | some (scheme, rest) =>
      if scheme.isEmpty || !scheme.all (fun c => c.isAlpha) then none
      else
        let hostChars := rest.takeWhile (fun c => !(c == '/' || c == '?' || c == '#'))
        let tailChars := rest.dropWhile (fun c => !(c == '/' || c == '?' || c == '#'))
        if hostChars.isEmpty then none
        else
          some
            { protocol := String.mk (scheme.map Char.toLower) ++ ":",
              host := String.mk (hostChars.map Char.toLower),
              tail := String.mk tailChars }

/-- `getBaseUrl` (IframeContainer.tsx lines 11 to 18): scheme plus host, or
the raw input when parsing fails. -/
def getBaseUrl (url : String) : String :=
  match parseUrl url with
  | some u => u.protocol ++ "//" ++ u.host
  | none => url

/-- `getPathFromUrl` (IframeContainer.tsx lines 20 to 27): pathname plus
search plus hash, or the root path when parsing fails. -/
def getPathFromUrl (url : String) : String :=
  match parseUrl url with
  | some u =>
      match u.tail.toList with
      | [] => "/"
      | c :: _ => if c == '/' then u.tail else "/" ++ u.tail
  | none => "/"

/-- The component-scoped navigation state of IframeContainer: the two refs
and the `iframeSrc` React state. -/
structure FrameState where
  prevUrl : Option String
  prevBaseUrl : Option String
  iframeSrc : String
deriving Repr, DecidableEq

/-- The URL-change effect body of IframeContainer.tsx (lines 54 to 101).
`hasIframe` models `iframeRef.current` being non-null and `hasWindow`
models `contentWindow` being non-null. Returns the next navigation state
and the list of messages posted into the frame. -/
def urlChangeEffect (hasIframe hasWindow : Bool) (url : String)
    (st : FrameState) : FrameState × List (List (String × JVal)) :=
  if !hasIframe then (st, [])
  else
    let currentBaseUrl := getBaseUrl url
    let currentPath := getPathFromUrl url
    if st.prevBaseUrl.isSome && st.prevBaseUrl != some currentBaseUrl then
      ({ prevUrl := some url, prevBaseUrl := some currentBaseUrl, iframeSrc := url }, [])
    else if st.prevUrl.isSome && st.prevUrl != some url &&
        st.prevBaseUrl == some currentBaseUrl then
      ({ st with prevUrl := some url },
       if hasWindow then
         [[("type", JVal.str "route-change"), ("path", JVal.str currentPath),
           ("fullUrl", JVal.str url)]]
       else [])
    else if st.prevUrl == none then
      ({ prevUrl := some url, prevBaseUrl := some currentBaseUrl, iframeSrc := url }, [])
    else (st, [])

/-- The values IframeContainer destructures from `useAuth()`. -/
structure AuthSnapshot where
  token : Option String
  accid : Option String
  apid : Option String
  employeeid : Option String
  wpid : Option String
  sessionData : Option SessionData
deriving Repr, DecidableEq

/-- `handleLoad` (IframeContainer.tsx lines 103 to 129): on an iframe load
event with a truthy token, posts the authentication message carrying the
session fields, the sessionData object and the current API URL. The posted
object has no theme and no language field. -/
def handleLoad (hasIframe hasWindow : Bool) (a : AuthSnapshot) (apiUrl : String) :
    List (List (String × JVal)) :=
  if hasIframe && truthy a.token then
    if hasWindow then
      [[("type", JVal.str "authentication"),
        ("token", jopt a.token),
        ("accid", jopt a.accid),
        ("apid", jopt a.apid),
        ("employeeid", jopt a.employeeid),
        ("wpid", jopt a.wpid),
        ("sessionData",
          match a.sessionData with
          | some d => JVal.sdata d
          | none => JVal.jnull),
        ("customUrl", JVal.str apiUrl)]]
    else []
  else []

/-- The environment events a rendered IframeContainer can experience. -/
inductive FrameEvent where
  | urlChange (url : String)
  | frameLoad
  | themeChange (theme : String)
  | languageChange (language : String)
deriving Repr, DecidableEq

/-- One step of a rendered IframeContainer. The component registers a hook
only on `url` (lines 54 to 101) and a load handler on the iframe element
(line 137); it subscribes to no theme or language context (its imports and
hooks never mention them), so theme and language changes produce no state
change and no posted message. -/
def frameStep (hasIframe hasWindow : Bool) (a : AuthSnapshot) (apiUrl : String) :
    FrameEvent → FrameState → FrameState × List (List (String × JVal))
  | FrameEvent.urlChange url, st => urlChangeEffect hasIframe hasWindow url st
  | FrameEvent.frameLoad, st => (st, handleLoad hasIframe hasWindow a apiUrl)
  | FrameEvent.themeChange _, st => (st, [])
  | FrameEvent.languageChange _, st => (st, [])

/-! ### Storage lemmas -/

theorem Storage.getItem_removeItem_self (s : Storage) (k : String) :
    (s.removeItem k).getItem k = none := by
  rcases s with ⟨l⟩
  unfold Storage.getItem Storage.removeItem
  rw [Option.map_eq_none', List.find?_eq_none]
  intro x hx
  have hkeep := (List.mem_filter.mp hx).2
  simpa [bne] using hkeep

theorem Storage.getItem_removeItem_ne (s : Storage) (k k' : String)
    (h : (k' == k) = false) :
    (s.removeItem k).getItem k' = s.getItem k' := by
  have hne : k' ≠ k := by simpa using h
  rcases s with ⟨l⟩
  unfold Storage.getItem Storage.removeItem
  congr 1
  induction l with
  | nil => rfl
  | cons a l ih =>
      by_cases hak : a.1 = k <;> by_cases hak' : a.1 = k' <;>
        simp_all [List.find?_cons, List.filter_cons, bne]

theorem Storage.getItem_setItem_self (s : Storage) (k v : String) :
    (s.setItem k v).getItem k = some v := by
  unfold Storage.getItem Storage.setItem
  simp [List.find?_cons]

theorem Storage.getItem_setItem_ne (s : Storage) (k k' v : String)
    (h : (k' == k) = false) :
    (s.setItem k v).getItem k' = s.getItem k' := by
  have hne : k' ≠ k := by simpa using h
  have hkk' : (k == k') = false := by simpa using hne.symm
  have hrm := Storage.getItem_removeItem_ne s k k' h
  unfold Storage.getItem Storage.removeItem at hrm
  unfold Storage.getItem Storage.setItem Storage.removeItem
  simpa [List.find?_cons, hkk'] using hrm

theorem Storage.getItem_setIfTruthy_ne (s : Storage) (key k' : String)
    (v : Option String) (h : (k' == key) = false) :
    (s.setIfTruthy key v).getItem k' = s.getItem k' := by
  unfold Storage.setIfTruthy
  split
  · exact Storage.getItem_setItem_ne s key k' _ h
  · rfl

theorem Storage.getItem_setIfTruthy_self (s : Storage) (key : String)
    (v : Option String) (h : truthy v = true) :
    (s.setIfTruthy key v).getItem key = some (v.getD "") := by
  simp [Storage.setIfTruthy, h, Storage.getItem_setItem_self]

/-- A key that is gone stays gone under further removals. -/
theorem Storage.getItem_foldl_removeItem_of_none (keys : List String)
    (s : Storage) (k : String) (h : s.getItem k = none) :
    (keys.foldl (fun s key => s.removeItem key) s).getItem k = none := by
  induction keys generalizing s with
  | nil => simpa using h
  | cons a keys ih =>
      refine ih _ ?_
      by_cases hk : (k == a) = true
      · have : k = a := by simpa using hk
        subst this
        exact Storage.getItem_removeItem_self s k
      · rw [Storage.getItem_removeItem_ne s a k (by simpa using hk)]
        exact h

/-- Removing every key of a list removes each one of them. -/
theorem Storage.getItem_foldl_removeItem (keys : List String) (s : Storage)
    (k : String) (h : k ∈ keys) :
    (keys.foldl (fun s key => s.removeItem key) s).getItem k = none := by
  induction keys generalizing s with
  | nil => cases h
  | cons a keys ih =>
      rcases List.mem_cons.mp h with rfl | hmem
      · exact Storage.getItem_foldl_removeItem_of_none keys _ k
          (Storage.getItem_removeItem_self s k)
      · exact ih (s.removeItem a) hmem

/-! ### Shared sample inputs -/

/-- The session-endpoint response outcome carrying the invalid-token
sentinel body. -/
def isInvalidTokenResp : FetchResult SessionBody → Bool
  | FetchResult.ok b => b.isSentinel
  | FetchResult.netError => false

/-- A concrete inbound authentication message carrying token xyz and a
custom API URL. -/
def sampleAuthMsg : MessageData :=
  { MessageData.empty with
    type := some "authentication", token := some "xyz",
    customUrl := some "https://custom.example/api" }

/-- A successful currency response carrying the dollar symbol. -/
def okCurrencyResp : FetchResult CurrencyBody :=
  FetchResult.ok { message := none, error := none, keyValue := some "$" }

/-- A successful session-endpoint response carrying one d_changes row. -/
def okSessionResp : FetchResult SessionBody :=
  FetchResult.ok { message := none, error := none, row := some ⟨"ap1", "wp1"⟩ }

/-- The session-endpoint response whose body is the invalid-token
sentinel. -/
def sentinelSessionResp : FetchResult SessionBody :=
  FetchResult.ok { message := some "Token is invalid", error := some "102", row := none }

/-- A fresh world hydrated from empty storages. -/
def emptyWorld : World :=
  initialWorld Storage.empty Storage.empty "light" "en" palomaURL

/-- A world hydrated from the storage a successful credential login leaves
behind (token tok, credential-login flag set). -/
def credWorld : World :=
  initialWorld ⟨[("paloma_token", "tok"), ("isCredentialLogin", "true")]⟩
    Storage.empty "light" "en" palomaURL

/-! ### Helper lemmas about the auth operations -/

/-- The currency fetch only writes localStorage: every other world
component is untouched. -/
theorem fetchAndStoreCurrency_only_localStore (t u : String)
    (r : FetchResult CurrencyBody) (w : World) :
    (fetchAndStoreCurrency t u r w).session = w.session ∧
    (fetchAndStoreCurrency t u r w).auth = w.auth ∧
    (fetchAndStoreCurrency t u r w).isTokenInheriting = w.isTokenInheriting ∧
    (fetchAndStoreCurrency t u r w).sessionData = w.sessionData := by
  cases r with
  | ok body =>
      unfold fetchAndStoreCurrency
      by_cases h : truthy body.keyValue = true <;> simp [h]
  | netError => exact ⟨rfl, rfl, rfl, rfl⟩

/-- After the synchronous handler setup, the received token is in
sessionStorage under the token key. -/
theorem handlerSetup_session_token (msg : MessageData) (w : World)
    (htok : truthy msg.token = true) :
    (handlerSetup msg w).session.getItem STORAGE_KEYS.TOKEN =
      some (msg.token.getD "") := by
  unfold handlerSetup
  split <;>
    simp [Storage.getItem_setItem_ne, Storage.getItem_setIfTruthy_ne,
      Storage.getItem_setIfTruthy_self, htok,
      STORAGE_KEYS.TOKEN, STORAGE_KEYS.ACCID, STORAGE_KEYS.APID,
      STORAGE_KEYS.EMPLOYEE_ID, STORAGE_KEYS.WPID,
      STORAGE_KEYS.IS_TOKEN_INHERIT, STORAGE_KEYS.IS_CREDENTIAL_LOGIN]

/-- Field values after the resolve segment of the handler. -/
theorem handlerResolve_fields (msg : MessageData) (cur : FetchResult CurrencyBody)
    (w : World) :
    (handlerResolve msg cur w).auth.token = some (msg.token.getD "") ∧
    (handlerResolve msg cur w).auth.isAuthenticated = true ∧
    (handlerResolve msg cur w).auth.isTokenInheriting = false ∧
    (handlerResolve msg cur w).auth.isCredentialLogin = false ∧
    (handlerResolve msg cur w).isTokenInheriting = false ∧
    (handlerResolve msg cur w).session = w.session := by
  refine ⟨rfl, rfl, rfl, rfl, rfl, ?_⟩
  unfold handlerResolve
  exact (fetchAndStoreCurrency_only_localStore _ _ cur w).1

/-- A non-sentinel session-endpoint outcome leaves the token, the
inheritance flags and the credential flag alone, and keeps (or sets)
`isAuthenticated`. -/
theorem fetchSessionData_nonsentinel_state (t : String) (r : FetchResult SessionBody)
    (w : World) (ht : (t == "") = false) (hr : isInvalidTokenResp r = false) :
    (fetchSessionData t r w).1.auth.token = w.auth.token ∧
    (fetchSessionData t r w).1.auth.isTokenInheriting = w.auth.isTokenInheriting ∧
    (fetchSessionData t r w).1.auth.isCredentialLogin = w.auth.isCredentialLogin ∧
    (fetchSessionData t r w).1.isTokenInheriting = w.isTokenInheriting ∧
    (w.auth.isAuthenticated = true → (fetchSessionData t r w).1.auth.isAuthenticated = true) ∧
    (fetchSessionData t r w).1.session.getItem STORAGE_KEYS.TOKEN =
      w.session.getItem STORAGE_KEYS.TOKEN := by
  unfold fetchSessionData
  cases r with
  | netError => simp [ht]
  | ok body =>
      have hb : body.isSentinel = false := hr
      simp only [ht, hb, Bool.false_eq_true, if_false]
      cases hrow : body.row with
      | none => simp [hrow]
      | some rowData =>
          simp [hrow, Storage.getItem_setItem_ne,
            STORAGE_KEYS.TOKEN, STORAGE_KEYS.AUTOMATED_POINT, STORAGE_KEYS.WORKPLACE]

/-! ### Claim theorems -/

/-- C3: for two successive target URLs with the same scheme+host but
different paths, the iframe src state is unchanged and exactly one
route-change message with the new path and full URL is posted into the
existing iframe. -/
theorem C3_same_base_posts_route_change (u1 u2 : String) (st : FrameState)
    (hp1 : (parseUrl u1).isSome) (hp2 : (parseUrl u2).isSome)
    (hprev : st.prevUrl = some u1)
    (hbase : st.prevBaseUrl = some (getBaseUrl u1))
    (hsame : getBaseUrl u1 = getBaseUrl u2)
    (hpath : getPathFromUrl u1 ≠ getPathFromUrl u2) :
    urlChangeEffect true true u2 st =
      ({ st with prevUrl := some u2 },
       [[("type", JVal.str "route-change"),
         ("path", JVal.str (getPathFromUrl u2)),
         ("fullUrl", JVal.str u2)]]) := by
  have hne : u1 ≠ u2 := fun h => hpath (by rw [h])
  unfold urlChangeEffect
  simp [hprev, hbase, hsame, hne]

/-- C3 witness: two concrete URLs on the same host with different paths. -/
theorem C3_witness :
    urlChangeEffect true true "https://app.example.com/b?q=1"
      ⟨some "https://app.example.com/a", some (getBaseUrl "https://app.example.com/a"),
        "https://app.example.com/a"⟩ =
      (⟨some "https://app.example.com/b?q=1",
         some (getBaseUrl "https://app.example.com/a"), "https://app.example.com/a"⟩,
       [[("type", JVal.str "route-change"),
         ("path", JVal.str (getPathFromUrl "https://app.example.com/b?q=1")),
         ("fullUrl", JVal.str "https://app.example.com/b?q=1")]]) :=
  C3_same_base_posts_route_change "https://app.example.com/a"
    "https://app.example.com/b?q=1" _ (by decide) (by decide) rfl rfl (by decide)
    (by decide)

/-- C4: for two successive target URLs whose scheme+host differ, the
iframe src state is set to the new full URL in that single effect run and
no route-change message is posted. -/
theorem C4_base_change_reloads (u1 u2 : String) (st : FrameState)
    (hasWindow : Bool)
    (hprev : st.prevUrl = some u1)
    (hbase : st.prevBaseUrl = some (getBaseUrl u1))
    (hdiff : getBaseUrl u1 ≠ getBaseUrl u2) :
    urlChangeEffect true hasWindow u2 st =
      ({ prevUrl := some u2, prevBaseUrl := some (getBaseUrl u2), iframeSrc := u2 },
       []) := by
  unfold urlChangeEffect
  simp [hbase, hdiff]

/-- C4 witness: two concrete URLs on different hosts. -/
theorem C4_witness :
    urlChangeEffect true true "https://other.example.com/y"
      ⟨some "https://app.example.com/x", some (getBaseUrl "https://app.example.com/x"),
        "https://app.example.com/x"⟩ =
      ({ prevUrl := some "https://other.example.com/y",
         prevBaseUrl := some (getBaseUrl "https://other.example.com/y"),
         iframeSrc := "https://other.example.com/y" }, []) :=
  C4_base_change_reloads "https://app.example.com/x" "https://other.example.com/y"
    _ true rfl rfl (by decide)

/-- C5 counterexample: on an iframe load with a session present, the posted
authentication message has no theme field and no language field, contrary
to the claim that it carries the current theme and language. -/
theorem C5_counterexample :
    (handleLoad true true
      ⟨some "tok", some "acc", some "ap", some "emp", some "wp", some ⟨"ap1", "wp1"⟩⟩
      "https://api.example").length = 1 ∧
    lookupField ((handleLoad true true
      ⟨some "tok", some "acc", some "ap", some "emp", some "wp", some ⟨"ap1", "wp1"⟩⟩
      "https://api.example").headD []) "theme" = none ∧
    lookupField ((handleLoad true true
      ⟨some "tok", some "acc", some "ap", some "emp", some "wp", some ⟨"ap1", "wp1"⟩⟩
      "https://api.example").headD []) "language" = none := by
  decide

/-- C5 (amended): on every iframe load with a truthy token, exactly one
authentication message is posted, carrying the session fields, the
sessionData object and the current API URL as customUrl, and carrying
neither a theme nor a language field. -/
theorem C5_load_message_fields (a : AuthSnapshot) (apiUrl : String)
    (htok : truthy a.token = true) :
    (handleLoad true true a apiUrl).length = 1 ∧
    ∀ m ∈ handleLoad true true a apiUrl,
      lookupField m "type" = some (JVal.str "authentication") ∧
      lookupField m "token" = some (jopt a.token) ∧
      lookupField m "accid" = some (jopt a.accid) ∧
      lookupField m "apid" = some (jopt a.apid) ∧
      lookupField m "employeeid" = some (jopt a.employeeid) ∧
      lookupField m "wpid" = some (jopt a.wpid) ∧
      lookupField m "sessionData" =
        some (match a.sessionData with
              | some d => JVal.sdata d
              | none => JVal.jnull) ∧
      lookupField m "customUrl" = some (JVal.str apiUrl) ∧
      lookupField m "theme" = none ∧
      lookupField m "language" = none := by
  unfold handleLoad
  simp [htok, lookupField, List.find?_cons]
  constructor <;>
    rintro k v (⟨rfl, -⟩ | ⟨rfl, -⟩ | ⟨rfl, -⟩ | ⟨rfl, -⟩ | ⟨rfl, -⟩ | ⟨rfl, -⟩ |
      ⟨rfl, -⟩ | ⟨rfl, -⟩) <;> decide

/-- C5 witness: the amended load-message property at a concrete session. -/
theorem C5_witness :
    lookupField ((handleLoad true true
      ⟨some "tok", none, none, none, none, none⟩ "https://api.example").headD [])
      "customUrl" = some (JVal.str "https://api.example") := by
  have h := (C5_load_message_fields
    ⟨some "tok", none, none, none, none, none⟩ "https://api.example" (by decide)).2
  exact (h _ (by decide)).2.2.2.2.2.2.2.1

/-- C6 counterexample: a concrete theme change while the iframe is rendered
posts no message at all, in particular no theme-language-update message,
contrary to the claim. -/
theorem C6_counterexample :
    frameStep true true ⟨some "tok", none, none, none, none, none⟩
      "https://api.example" (FrameEvent.themeChange "dark")
      ⟨some "https://app.example.com/a", some "https://app.example.com",
        "https://app.example.com/a"⟩ =
      (⟨some "https://app.example.com/a", some "https://app.example.com",
        "https://app.example.com/a"⟩, []) ∧
    ((frameStep true true ⟨some "tok", none, none, none, none, none⟩
      "https://api.example" (FrameEvent.themeChange "dark")
      ⟨some "https://app.example.com/a", some "https://app.example.com",
        "https://app.example.com/a"⟩).2.any
      (fun m => lookupField m "type" == some (JVal.str "theme-language-update"))) = false := by
  decide

/-- C6 (amended): theme and language changes while an iframe is rendered
change neither the navigation state (so the iframe src is untouched) nor
post any message into the iframe; the bridge never posts a
theme-language-update message. -/
theorem C6_theme_language_changes_do_nothing (hasIframe hasWindow : Bool)
    (a : AuthSnapshot) (apiUrl t lang : String) (st : FrameState) :
    frameStep hasIframe hasWindow a apiUrl (FrameEvent.themeChange t) st = (st, []) ∧
    frameStep hasIframe hasWindow a apiUrl (FrameEvent.languageChange lang) st = (st, []) :=
  ⟨rfl, rfl⟩

/-- C10: every inbound window message that is not an authentication message
with a truthy token makes the handler reset both isTokenInheriting states
and navigate to /login, whatever the current state (in particular also
after authentication has succeeded). -/
theorem C10_non_auth_message_redirects (m : Option MessageData)
    (cur : FetchResult CurrencyBody) (sess : FetchResult SessionBody) (w : World)
    (h : isAuthenticationMessage m = false) :
    handler m cur sess w =
      ({ w with isTokenInheriting := false,
                auth := { w.auth with isTokenInheriting := false } },
       [Effect.navigate "/login"]) := by
  unfold handler
  simp [h]

/-- C10 witness: a null-data message arriving in an authenticated state. -/
theorem C10_witness :
    handler none okCurrencyResp okSessionResp credWorld =
      ({ credWorld with isTokenInheriting := false,
                        auth := { credWorld.auth with isTokenInheriting := false } },
       [Effect.navigate "/login"]) :=
  C10_non_auth_message_redirects none okCurrencyResp okSessionResp credWorld (by decide)

/-- C1 counterexample: an authentication message with token xyz whose
session-metadata fetch answers with the invalid-token sentinel ends with
the persisted token cleared and isAuthenticated false (the sentinel path
logs the user out), and in the same run isTokenInheriting is already false
while the session-metadata fetch is pending. -/
theorem C1_counterexample :
    (handler (some sampleAuthMsg) okCurrencyResp sentinelSessionResp
      emptyWorld).1.session.getItem "paloma_token" = none ∧
    (handler (some sampleAuthMsg) okCurrencyResp sentinelSessionResp
      emptyWorld).1.auth.isAuthenticated = false ∧
    (handlerResolve sampleAuthMsg okCurrencyResp
      (handlerSetup sampleAuthMsg emptyWorld)).isTokenInheriting = false := by
  decide

/-- C1 (amended): for every inbound authentication message with a non-empty
token T, starting from a state with isTokenInheriting false,
isTokenInheriting is true after the synchronous setup (while the currency
fetch is pending) and false again after the currency fetch resolves (so
already false during the session-metadata fetch); and provided the
session-metadata fetch does not answer with the invalid-token sentinel,
after the handler finishes the persisted token equals T, isAuthenticated
is true and isTokenInheriting is false. -/
theorem C1_authentication_message (msg : MessageData) (T : String)
    (cur : FetchResult CurrencyBody) (sess : FetchResult SessionBody) (w : World)
    (htype : msg.type = some "authentication") (htok : msg.token = some T)
    (hT : T ≠ "") (hstart : w.isTokenInheriting = false)
    (hsent : isInvalidTokenResp sess = false) :
    w.isTokenInheriting = false ∧
    (handlerSetup msg w).isTokenInheriting = true ∧
    (handlerResolve msg cur (handlerSetup msg w)).isTokenInheriting = false ∧
    (handler (some msg) cur sess w).1.session.getItem STORAGE_KEYS.TOKEN = some T ∧
    (handler (some msg) cur sess w).1.auth.isAuthenticated = true ∧
    (handler (some msg) cur sess w).1.isTokenInheriting = false := by
  have htr : truthy msg.token = true := by simp [truthy, htok, hT]
  have hD : msg.token.getD "" = T := by simp [htok]
  have hguard : isAuthenticationMessage (some msg) = true := by
    simp [isAuthenticationMessage, htype, htr]
  have hTb : (T == "") = false := by simpa using hT
  have hhandler : handler (some msg) cur sess w =
      ((fetchSessionData (msg.token.getD "") sess
          (handlerResolve msg cur (handlerSetup msg w))).1,
        (fetchSessionData (msg.token.getD "") sess
          (handlerResolve msg cur (handlerSetup msg w))).2 ++
          [Effect.navigate "/dashboard"]) := by
    unfold handler
    simp [hguard]
  have hres := handlerResolve_fields msg cur (handlerSetup msg w)
  have hsess := fetchSessionData_nonsentinel_state (msg.token.getD "") sess
    (handlerResolve msg cur (handlerSetup msg w)) (by rw [hD]; exact hTb) hsent
  refine ⟨hstart, rfl, hres.2.2.2.2.1, ?_, ?_, ?_⟩
  · rw [hhandler]
    rw [hsess.2.2.2.2.2, hres.2.2.2.2.2, handlerSetup_session_token msg w htr, hD]
  · rw [hhandler]
    exact hsess.2.2.2.2.1 hres.2.1
  · rw [hhandler]
    rw [hsess.2.2.2.1, hres.2.2.2.2.1]

/-- C1 witness: the amended property at a concrete message and a fresh
world with a successful session fetch. -/
theorem C1_witness :
    (handler (some sampleAuthMsg) okCurrencyResp okSessionResp
      emptyWorld).1.session.getItem STORAGE_KEYS.TOKEN = some "xyz" ∧
    (handler (some sampleAuthMsg) okCurrencyResp okSessionResp
      emptyWorld).1.auth.isAuthenticated = true :=
  ⟨(C1_authentication_message sampleAuthMsg "xyz" okCurrencyResp okSessionResp
      emptyWorld rfl rfl (by decide) (by decide) (by decide)).2.2.2.1,
   (C1_authentication_message sampleAuthMsg "xyz" okCurrencyResp okSessionResp
      emptyWorld rfl rfl (by decide) (by decide) (by decide)).2.2.2.2.1⟩

/-- C2 counterexample: the inheritance handler persists a
paloma_customUrl entry, and logout leaves it in sessionStorage even though
its name starts with the paloma prefix, contrary to the claim. -/
theorem C2_counterexample :
    ((logout (handler (some sampleAuthMsg) okCurrencyResp okSessionResp
      emptyWorld).1).1).session.getItem "paloma_customUrl" =
        some "https://custom.example/api" ∧
    "paloma_customUrl".toList.take 7 = "paloma_".toList := by
  constructor
  · decide
  · decide

/-- C2 (amended): logout removes the nine STORAGE_KEYS entries (the
paloma session fields plus the isTokenInherit and isCredentialLogin
flags) from sessionStorage and the cached currency from localStorage, and
always hard-navigates to /login; the paloma_customUrl entry written
during token inheritance is not removed. -/
theorem C2_logout_clears_storage (w : World) :
    (∀ k ∈ STORAGE_KEYS.values, ((logout w).1).session.getItem k = none) ∧
    ((logout w).1).localStore.getItem "currency" = none ∧
    Effect.locationReplace "/login" ∈ (logout w).2 := by
  refine ⟨?_, ?_, ?_⟩
  · intro k hk
    exact Storage.getItem_foldl_removeItem STORAGE_KEYS.values w.session k hk
  · exact Storage.getItem_removeItem_self w.localStore "currency"
  · simp [logout]

/-- C2 witness: the amended property at a concrete world. -/
theorem C2_witness :
    ((logout credWorld).1).session.getItem "paloma_token" = none ∧
    Effect.locationReplace "/login" ∈ (logout credWorld).2 :=
  ⟨(C2_logout_clears_storage credWorld).1 "paloma_token" (by decide),
   (C2_logout_clears_storage credWorld).2.2⟩

/-- C7 counterexample: the bearer-token-authenticated currency fetch
(/getReports) receiving the invalid-token sentinel body does not invoke
handleTokenError: the state stays authenticated with the token still
persisted, and the dollar fall-back is stored instead. -/
theorem C7_counterexample :
    (fetchAndStoreCurrency "tok" "https://api.example"
      (FetchResult.ok ⟨some "Token is invalid", some "102", none⟩)
      credWorld).auth.isAuthenticated = true ∧
    (fetchAndStoreCurrency "tok" "https://api.example"
      (FetchResult.ok ⟨some "Token is invalid", some "102", none⟩)
      credWorld).session.getItem "paloma_token" = some "tok" ∧
    (fetchAndStoreCurrency "tok" "https://api.example"
      (FetchResult.ok ⟨some "Token is invalid", some "102", none⟩)
      credWorld).localStore.getItem "currency" = some "$" := by
  decide

/-- C7 (amended): a sentinel body from the /get session endpoint always
makes fetchSessionData invoke handleTokenError, whatever state it is
called from (so identically for the credential-login and the
token-inheritance call sites): the outcome is exactly the handleTokenError
outcome, the user ends logged out and a redirect to /login is emitted. The
currency fetch (/getReports) does not inspect the sentinel. -/
theorem C7_sentinel_triggers_token_error (t : String) (body : SessionBody)
    (w : World) (ht : (t == "") = false) (hsent : body.isSentinel = true) :
    fetchSessionData t (FetchResult.ok body) w = handleTokenError w ∧
    (fetchSessionData t (FetchResult.ok body) w).1.auth.isAuthenticated = false ∧
    (fetchSessionData t (FetchResult.ok body) w).1.auth.token = none ∧
    Effect.navigate "/login" ∈ (fetchSessionData t (FetchResult.ok body) w).2 := by
  have heq : fetchSessionData t (FetchResult.ok body) w = handleTokenError w := by
    unfold fetchSessionData
    simp [ht, hsent]
  refine ⟨heq, ?_, ?_, ?_⟩ <;> rw [heq] <;> simp [handleTokenError, logout]

/-- C7 witness: the sentinel at a concrete call. -/
theorem C7_witness :
    (fetchSessionData "tok" sentinelSessionResp credWorld).1.auth.isAuthenticated = false ∧
    Effect.navigate "/login" ∈ (fetchSessionData "tok" sentinelSessionResp credWorld).2 :=
  ⟨(C7_sentinel_triggers_token_error "tok" _ credWorld (by decide) (by decide)).2.1,
   (C7_sentinel_triggers_token_error "tok" _ credWorld (by decide) (by decide)).2.2.2⟩

/-- C8 counterexample: a login whose getToken succeeds with token abc123
but whose session-metadata fetch answers with the invalid-token sentinel
still returns true, yet afterwards isAuthenticated is false and the
persisted token is gone, contrary to the claim. -/
theorem C8_counterexample :
    (login "alice" "secret" (FetchResult.ok ⟨some "abc123", none, none, none, none⟩)
      okCurrencyResp sentinelSessionResp emptyWorld).2.2 = true ∧
    (login "alice" "secret" (FetchResult.ok ⟨some "abc123", none, none, none, none⟩)
      okCurrencyResp sentinelSessionResp emptyWorld).1.auth.isAuthenticated = false ∧
    (login "alice" "secret" (FetchResult.ok ⟨some "abc123", none, none, none, none⟩)
      okCurrencyResp sentinelSessionResp emptyWorld).1.session.getItem
      "paloma_token" = none := by
  decide

/-- C8 (amended): every login whose getToken response carries a non-empty
token and whose session-metadata fetch does not answer with the
invalid-token sentinel returns true, and afterwards isAuthenticated and
isCredentialLogin are true, isTokenInheriting is false, and the persisted
token equals the returned token (with the sentinel, login still returns
true but the user ends logged out). -/
theorem C8_successful_login (username password : String) (data : TokenBody)
    (cur : FetchResult CurrencyBody) (sess : FetchResult SessionBody) (w : World)
    (T : String) (htok : data.token = some T) (hT : T ≠ "")
    (hsent : isInvalidTokenResp sess = false) :
    (login username password (FetchResult.ok data) cur sess w).2.2 = true ∧
    (login username password (FetchResult.ok data) cur sess w).1.auth.isAuthenticated = true ∧
    (login username password (FetchResult.ok data) cur sess w).1.auth.isCredentialLogin = true ∧
    (login username password (FetchResult.ok data) cur sess w).1.auth.isTokenInheriting = false ∧
    (login username password (FetchResult.ok data) cur sess w).1.session.getItem
      STORAGE_KEYS.TOKEN = some T := by
  have htr : truthy data.token = true := by simp [truthy, htok, hT]
  have hD : data.token.getD "" = T := by simp [htok]
  have hTb : (T == "") = false := by simpa using hT
  have hts : (data.token.getD "" == "") = false := by rw [hD]; exact hTb
  unfold login
  simp only [htr, Bool.not_true, Bool.false_eq_true, if_false]
  refine ⟨trivial, ?_, ?_, ?_, ?_⟩
  · exact (fetchSessionData_nonsentinel_state _ sess _ hts hsent).2.2.2.2.1
      (by rw [(fetchAndStoreCurrency_only_localStore _ _ _ _).2.1])
  · exact ((fetchSessionData_nonsentinel_state _ sess _ hts hsent).2.2.1).trans
      (by rw [(fetchAndStoreCurrency_only_localStore _ _ _ _).2.1])
  · exact ((fetchSessionData_nonsentinel_state _ sess _ hts hsent).2.1).trans
      (by rw [(fetchAndStoreCurrency_only_localStore _ _ _ _).2.1])
  · rw [(fetchSessionData_nonsentinel_state _ sess _ hts hsent).2.2.2.2.2,
      (fetchAndStoreCurrency_only_localStore _ _ _ _).1]
    simp [Storage.getItem_setItem_ne, Storage.getItem_setItem_self, hD,
      STORAGE_KEYS.TOKEN, STORAGE_KEYS.ACCID, STORAGE_KEYS.APID,
      STORAGE_KEYS.EMPLOYEE_ID, STORAGE_KEYS.WPID]

/-- C8 witness: the amended login property at concrete credentials and
responses. -/
theorem C8_witness :
    (login "alice" "secret" (FetchResult.ok ⟨some "abc123", none, none, none, none⟩)
      okCurrencyResp okSessionResp emptyWorld).2.2 = true ∧
    (login "alice" "secret" (FetchResult.ok ⟨some "abc123", none, none, none, none⟩)
      okCurrencyResp okSessionResp emptyWorld).1.session.getItem
      STORAGE_KEYS.TOKEN = some "abc123" :=
  ⟨(C8_successful_login "alice" "secret" ⟨some "abc123", none, none, none, none⟩
      okCurrencyResp okSessionResp emptyWorld "abc123" rfl (by decide) (by decide)).1,
   (C8_successful_login "alice" "secret" ⟨some "abc123", none, none, none, none⟩
      okCurrencyResp okSessionResp emptyWorld "abc123" rfl (by decide) (by decide)).2.2.2.2⟩

/-! ### The auth-flags invariant -/

/-- Truthiness of a defaulted string value. -/
theorem truthy_getD (v : Option String) (h : truthy v = true) :
    (v.getD "" != "") = true := by
  cases v with
  | none => simp [truthy] at h
  | some s => simpa [truthy] using h

/-- The mutual-exclusion invariant on the auth flags, strengthened with
the fact that an authenticated state has a truthy persisted token (needed
to push the invariant through the mount effect). -/
def WorldInv (w : World) : Prop :=
  (¬ (w.auth.isAuthenticated = true ∧ w.auth.isTokenInheriting = true)) ∧
  (w.auth.isAuthenticated = true →
    truthy (w.session.getItem STORAGE_KEYS.TOKEN) = true)

theorem logout_auth_false (w : World) :
    (logout w).1.auth.isAuthenticated = false := rfl

theorem logout_WorldInv (w : World) : WorldInv (logout w).1 := by
  constructor
  · rintro ⟨h1, -⟩
    rw [logout_auth_false] at h1
    exact absurd h1 (by simp)
  · intro h1
    rw [logout_auth_false] at h1
    exact absurd h1 (by simp)

/-- The world left by the synchronous start of `login` (storage flags and
API URL) keeps the invariant. -/
theorem loginPre_WorldInv (w : World) (hw : WorldInv w) :
    WorldInv { w with
      session := (w.session.removeItem STORAGE_KEYS.IS_TOKEN_INHERIT).setItem
        STORAGE_KEYS.IS_CREDENTIAL_LOGIN "true",
      apiUrl := "https://posapi.palomapos.com/api/v1.9" } := by
  constructor
  · exact fun hh => hw.1 ⟨hh.1, hh.2⟩
  · intro h1
    have := hw.2 h1
    simpa [Storage.getItem_setItem_ne, Storage.getItem_removeItem_ne,
      STORAGE_KEYS.TOKEN, STORAGE_KEYS.IS_TOKEN_INHERIT,
      STORAGE_KEYS.IS_CREDENTIAL_LOGIN] using this

/-- `fetchSessionData` preserves the invariant whenever the inheritance
flag is already down and the token is persisted. -/
theorem fetchSessionData_WorldInv (t : String) (r : FetchResult SessionBody)
    (w : World) (hw : WorldInv w) (hinh : w.auth.isTokenInheriting = false)
    (htok : truthy (w.session.getItem STORAGE_KEYS.TOKEN) = true) :
    WorldInv (fetchSessionData t r w).1 := by
  unfold fetchSessionData
  by_cases ht : (t == "") = true
  · simpa [ht] using hw
  · have ht' : (t == "") = false := by simpa using ht
    simp only [ht', Bool.false_eq_true, if_false]
    cases r with
    | netError => exact hw
    | ok body =>
        by_cases hs : body.isSentinel = true
        · simp only [hs, if_true]
          exact logout_WorldInv w
        · have hs' : body.isSentinel = false := by simpa using hs
          simp only [hs', Bool.false_eq_true, if_false]
          cases hrow : body.row with
          | none =>
              simp only [hrow]
              constructor
              · rintro ⟨-, h2⟩
                rw [hinh] at h2
                exact absurd h2 (by simp)
              · intro _
                exact htok
          | some rowData =>
              simp only [hrow]
              constructor
              · rintro ⟨-, h2⟩
                rw [hinh] at h2
                exact absurd h2 (by simp)
              · intro _
                simpa [Storage.getItem_setItem_ne, STORAGE_KEYS.TOKEN,
                  STORAGE_KEYS.AUTOMATED_POINT, STORAGE_KEYS.WORKPLACE] using htok

/-- Every quiescent reachable world satisfies the strengthened
invariant. -/
theorem reachQ_WorldInv {w : World} (h : ReachQ w) : WorldInv w := by
  induction h with
  | init session localStore theme language apiUrl =>
      constructor
      · rintro ⟨h1, h2⟩
        simp only [initialWorld, initialAuthState] at h1 h2
        rw [h1] at h2
        simp at h2
      · exact fun h1 => h1
  | mount hr ih =>
      rename_i w
      unfold mountEffect
      by_cases hc : ((w.session.getItem STORAGE_KEYS.IS_TOKEN_INHERIT == some "true") &&
          !truthy (w.session.getItem STORAGE_KEYS.TOKEN)) = true
      · simp only [hc, if_true]
        constructor
        · rintro ⟨h1, -⟩
          have htk := ih.2 h1
          simp [htk] at hc
        · exact fun h1 => ih.2 h1
      · simp only [hc, if_false]
        simpa using ih
  | loginStep u p tr cr sr hr ih =>
      rename_i w
      unfold login
      cases tr with
      | netError => exact loginPre_WorldInv w ih
      | ok data =>
          by_cases htr : truthy data.token = true
          · simp only [htr, Bool.not_true, Bool.false_eq_true, if_false]
            refine fetchSessionData_WorldInv _ sr _ ?_ ?_ ?_
            · constructor
              · rintro ⟨-, h2⟩
                rw [(fetchAndStoreCurrency_only_localStore _ _ _ _).2.1] at h2
                exact absurd h2 (by simp)
              · intro _
                rw [(fetchAndStoreCurrency_only_localStore _ _ _ _).1]
                simp [Storage.getItem_setItem_ne, Storage.getItem_setItem_self,
                  STORAGE_KEYS.TOKEN, STORAGE_KEYS.ACCID, STORAGE_KEYS.APID,
                  STORAGE_KEYS.EMPLOYEE_ID, STORAGE_KEYS.WPID, truthy]
                simpa [truthy] using truthy_getD data.token htr
            · rw [(fetchAndStoreCurrency_only_localStore _ _ _ _).2.1]
            · rw [(fetchAndStoreCurrency_only_localStore _ _ _ _).1]
              simp [Storage.getItem_setItem_ne, Storage.getItem_setItem_self,
                STORAGE_KEYS.TOKEN, STORAGE_KEYS.ACCID, STORAGE_KEYS.APID,
                STORAGE_KEYS.EMPLOYEE_ID, STORAGE_KEYS.WPID, truthy]
              simpa [truthy] using truthy_getD data.token htr
          · have htr' : truthy data.token = false := by simpa using htr
            simp only [htr', Bool.not_false, if_true]
            exact loginPre_WorldInv w ih
  | logoutStep hr ih =>
      rename_i w
      exact logout_WorldInv w
  | tokenErrorStep hr ih =>
      rename_i w
      exact logout_WorldInv w
  | message m cr sr hr ih =>
      rename_i w
      unfold handler
      by_cases hm : isAuthenticationMessage m = true
      · simp only [hm, if_true]
        have htr : truthy (m.getD MessageData.empty).token = true := by
          have := hm
          simp only [isAuthenticationMessage, Bool.and_eq_true] at this
          exact this.2
        refine fetchSessionData_WorldInv _ sr _ ?_ ?_ ?_
        · constructor
          · rintro ⟨-, h2⟩
            rw [(handlerResolve_fields _ _ _).2.2.1] at h2
            exact absurd h2 (by simp)
          · intro _
            rw [(handlerResolve_fields _ _ _).2.2.2.2.2,
              handlerSetup_session_token _ _ htr]
            simpa [truthy] using truthy_getD _ htr
        · exact (handlerResolve_fields _ _ _).2.2.1
        · rw [(handlerResolve_fields _ _ _).2.2.2.2.2,
            handlerSetup_session_token _ _ htr]
          simpa [truthy] using truthy_getD _ htr
      · have hm' : isAuthenticationMessage m = false := by simpa using hm
        simp only [hm', Bool.false_eq_true, if_false]
        constructor
        · rintro ⟨-, h2⟩
          exact absurd h2 (by simp)
        · exact fun h1 => ih.2 h1

/-- C9 counterexample: from the quiescent state a credential login leaves
behind (authenticated, token persisted), the transient setup update of an
inbound authentication message yields a reachable state with
isAuthenticated and isTokenInheriting both true, contrary to the claimed
invariant. -/
theorem C9_counterexample :
    Reach (handlerSetup sampleAuthMsg credWorld) ∧
    (handlerSetup sampleAuthMsg credWorld).auth.isAuthenticated = true ∧
    (handlerSetup sampleAuthMsg credWorld).auth.isTokenInheriting = true := by
  refine ⟨Reach.messageMidSetup sampleAuthMsg ?_ (by decide), by decide, by decide⟩
  exact Reach.init ⟨[("paloma_token", "tok"), ("isCredentialLogin", "true")]⟩
    Storage.empty "light" "en" palomaURL

/-- C9 (amended): at every quiescent reachable state (after hydration,
mount, login, logout, handleTokenError or a completed message-handler run)
at most one of isAuthenticated and isTokenInheriting is true; the
transient mid-handler update can violate this when an authentication
message arrives while already authenticated. -/
theorem C9_quiescent_flags_exclusive (w : World) (h : ReachQ w) :
    ¬ (w.auth.isAuthenticated = true ∧ w.auth.isTokenInheriting = true) :=
  (reachQ_WorldInv h).1

/-- C9 witness: the invariant at the freshly hydrated empty world. -/
theorem C9_witness :
    ¬ (emptyWorld.auth.isAuthenticated = true ∧
       emptyWorld.auth.isTokenInheriting = true) :=
  C9_quiescent_flags_exclusive emptyWorld
    (ReachQ.init Storage.empty Storage.empty "light" "en" palomaURL)

end Paloma
